import Mathlib

/-!
Shallow embedding of the client-side session and request-dispatch layer of the
ai-chatbot-backend frontend.

Sources embedded:
- src/frontend/src/api/chatApi.js : the request constructors sendMessage,
  getHistory, loginUser, signupUser;
- src/frontend/src/pages/Chat.jsx : the Chat component (local state msg/reply
  and its send handler) and the Login component (its login handler, which
  writes the access token into localStorage and navigates);
- src/unnamed/part_000 : the App routes and the Signup component (its signup
  handler, which builds the request URL by raw string interpolation).

Browser localStorage is modelled as an association list of string keys to
string values; an awaited axios call is modelled by its outcome, either a
decoded success value or a rejection (network failure or error status).
The axios service module itself (src/frontend/src/services/api.js imported by
the pages, src/frontend/src/api/axios.js imported by chatApi.js) is not part
of the given sources; where a claim depends on it, the dispatcher is modelled
from the specification text and marked as such in its doc comment.
-/

namespace ChatbotClient

/-- Browser localStorage, modelled as an association list from string keys to
string values; lookup takes the first binding. -/
abbrev LocalStorage := List (String × String)

/-- The call localStorage.getItem k : the value bound to k, if any. -/
def LocalStorage.getItem (st : LocalStorage) (k : String) : Option String :=
  (st.find? (fun p => p.1 == k)).map (fun p => p.2)

/-- The call localStorage.setItem k v : bind k to v, dropping any previous
binding of k. -/
def LocalStorage.setItem (st : LocalStorage) (k v : String) : LocalStorage :=
  (k, v) :: st.filter (fun p => p.1 != k)

/-- The call localStorage.removeItem k : drop every binding of k. -/
def LocalStorage.removeItem (st : LocalStorage) (k : String) : LocalStorage :=
  st.filter (fun p => p.1 != k)

/-- The single well-known localStorage key the Login page stores the session
token under (Chat.jsx, localStorage.setItem of the token). -/
def tokenKey : String := "token"

/-- Body of an outgoing axios request, in the three shapes the source
produces: no body, a URLSearchParams form body, or a plain-object structured
body (serialised as JSON by axios). Both object shapes are lists of
field-name/value pairs. -/
inductive ReqBody
  | empty : ReqBody
  | form : List (String × String) → ReqBody
  | json : List (String × String) → ReqBody
deriving DecidableEq

/-- An outgoing request as the source constructs it: method, URL (possibly
already carrying a query string), body, and the axios params config option
(extra query parameters). -/
structure Request where
  method : String
  url : String
  body : ReqBody
  params : List (String × String)
deriving DecidableEq

/-- The function sendMessage of src/frontend/src/api/chatApi.js:
api.post to /chat with the plain-object body having the one field message. -/
def sendMessage (message : String) : Request :=
  { method := "POST", url := "/chat",
    body := ReqBody.json [("message", message)], params := [] }

/-- The function getHistory of src/frontend/src/api/chatApi.js:
api.get to /chat/history. -/
def getHistory : Request :=
  { method := "GET", url := "/chat/history",
    body := ReqBody.empty, params := [] }

/-- The function loginUser of src/frontend/src/api/chatApi.js:
api.post to /login with a URLSearchParams body built from the given data,
that is, a form-encoded body. -/
def loginUser (data : List (String × String)) : Request :=
  { method := "POST", url := "/login",
    body := ReqBody.form data, params := [] }

/-- The function signupUser of src/frontend/src/api/chatApi.js:
api.post to /signup with a null body and the credentials passed through the
axios params option, that is, as query parameters. -/
def signupUser (data : List (String × String)) : Request :=
  { method := "POST", url := "/signup",
    body := ReqBody.empty, params := data }

/-- Outcome of an awaited axios call as the awaiting handler observes it:
fulfilled with the decoded response data, or rejected (transport failure or a
non-success status, both of which make the await throw). -/
inductive ApiResult (α : Type)
  | ok : α → ApiResult α
  | err : ApiResult α

/-- The decoded success payload of the login endpoint. -/
structure LoginResponse where
  access_token : String

/-- The client-visible state the Login and Signup page handlers touch:
localStorage plus the current route. -/
structure ClientState where
  store : LocalStorage
  route : String
deriving DecidableEq

/-- The login handler of the Login component (Chat.jsx, second module): on a
fulfilled await it stores the access_token of the response under the key
token and navigates to /chat; on a rejection the catch block only alerts, so
neither the store nor the route changes. -/
def Login.login (outcome : ApiResult LoginResponse) (s : ClientState) : ClientState :=
  match outcome with
  | ApiResult.ok res =>
      { store := s.store.setItem tokenKey res.access_token, route := "/chat" }
  | ApiResult.err => s

/-- The request the login handler issues (Chat.jsx, second module): a
URLSearchParams form with the fields username and password, posted to
/login. -/
def Login.loginRequest (username password : String) : Request :=
  { method := "POST", url := "/login",
    body := ReqBody.form [("username", username), ("password", password)],
    params := [] }

/-- The signup URL of the signup handler (src/unnamed/part_000, Signup
component): raw template-string interpolation of the username and password
into the query string. -/
def Signup.signupUrl (username password : String) : String :=
  "/signup?username=" ++ username ++ "&password=" ++ password

/-- The request the signup handler issues: a post to the interpolated URL
with no body and no params option. -/
def Signup.signupRequest (username password : String) : Request :=
  { method := "POST", url := Signup.signupUrl username password,
    body := ReqBody.empty, params := [] }

/-- The signup handler of the Signup component (src/unnamed/part_000): on a
fulfilled await it alerts and navigates to the root route; on a rejection it
only alerts. Neither branch touches localStorage. -/
def Signup.signup (outcome : ApiResult Unit) (s : ClientState) : ClientState :=
  match outcome with
  | ApiResult.ok _ => { s with route := "/" }
  | ApiResult.err => s

/-- The decoded success payload of the chat endpoint. -/
structure ChatResponse where
  bot_reply : String

/-- Local state of the Chat component (Chat.jsx, first module): the input
text msg and the last displayed reply. -/
structure ChatState where
  msg : String
  reply : String
deriving DecidableEq

/-- The send handler of the Chat component: posts the plain-object body with
field message, and on a fulfilled await sets reply to the bot_reply of the
response. There is no catch: a rejected await leaves the component state
untouched. -/
def Chat.send (outcome : ApiResult ChatResponse) (s : ChatState) : ChatState :=
  match outcome with
  | ApiResult.ok res => { s with reply := res.bot_reply }
  | ApiResult.err => s

/-- The request the send handler issues: a post to /chat with the
plain-object body having the one field message holding the input text. -/
def Chat.sendRequest (s : ChatState) : Request :=
  { method := "POST", url := "/chat",
    body := ReqBody.json [("message", s.msg)], params := [] }

/-- Role of a chat message, as the specification names them. -/
inductive Role
  | user : Role
  | bot : Role
deriving DecidableEq

/-- A chat message: role and content. -/
structure Message where
  role : Role
  content : String
deriving DecidableEq

/-- The chat transcript the Chat component retains and renders: exactly one
bot line showing the current reply (the paragraph rendering the reply state
in Chat.jsx). No user message is kept anywhere in the component state. -/
def Chat.displayedMessages (s : ChatState) : List Message :=
  [{ role := Role.bot, content := s.reply }]

/-- A sequence of sequentially awaited successful sends whose replies are
rs, starting from state s. -/
def Chat.sendAll (rs : List String) (s : ChatState) : ChatState :=
  rs.foldl (fun st r => Chat.send (ApiResult.ok { bot_reply := r }) st) s

/-- Split a character list at every occurrence of the separator c. -/
def splitOnChar (c : Char) : List Char → List (List Char)
  | [] => [[]]
  | x :: xs =>
    if x = c then [] :: splitOnChar c xs
    else
      match splitOnChar c xs with
      | [] => [[x]]
      | g :: gs => (x :: g) :: gs

/-- The query component of a URL: everything after the first question mark
(empty when there is none). -/
def queryChars (url : List Char) : List Char :=
  ((url.dropWhile (fun c => c != '?')).drop 1)

/-- Split one key=value chunk at its first equals sign; a chunk with no
equals sign is a key with empty value. -/
def pairChars (s : List Char) : List Char × List Char :=
  (s.takeWhile (fun c => c != '='), (s.dropWhile (fun c => c != '=')).drop 1)

/-- The query parameters a standard server parses out of a request URL:
split the query component on ampersands, drop empty chunks, split each chunk
at its first equals sign. -/
def parseQuery (url : String) : List (String × String) :=
  ((splitOnChar '&' (queryChars url.toList)).filter (fun g => g != [])).map
    (fun g => (String.mk (pairChars g).1, String.mk (pairChars g).2))

/-- The body-encoding mode of a request spec, as the specification
distinguishes them. -/
inductive Encoding
  | form : Encoding
  | query : Encoding
  | structured : Encoding
deriving DecidableEq

/-- A request spec handed to the dispatcher, per the specification: method,
path, encoding mode, and whether the request is authorized. -/
structure RequestSpec where
  method : String
  path : String
  encoding : Encoding
  authorized : Bool
deriving DecidableEq

/-- The dispatcher error taxonomy of the specification. -/
inductive DispatchError
  | Unauthenticated : DispatchError
  | Network : DispatchError
  | Remote : Nat → String → DispatchError
deriving DecidableEq

/-- A decoded successful response: status and body. -/
structure Response where
  status : Nat
  body : String
deriving DecidableEq

/-- What the transport would produce if invoked: no response at all
(transport failure), or a response with a status and body. -/
inductive TransportOutcome
  | noResponse : TransportOutcome
  | response : Nat → String → TransportOutcome
deriving DecidableEq

/-- Result of a dispatch. -/
inductive DispatchOutcome
  | success : Response → DispatchOutcome
  | failure : DispatchError → DispatchOutcome
deriving DecidableEq

/-- Modelled from the spec: RequestDispatcher.send of specification section
4.2. The repository's axios service module (src/frontend/src/services/api.js,
src/frontend/src/api/axios.js) is not among the given sources, so this
follows the specification text: an authorized request finding no stored
session fails fast with Unauthenticated and performs no network call; a
transport failure yields Network; a response with the authorization-failure
status 401 clears the stored token and yields Unauthenticated; a success
status yields the response; any other status yields Remote. The result
carries the outcome, the store afterwards, and the number of transport
invocations performed. -/
def dispatch (spec : RequestSpec) (transport : TransportOutcome)
    (store : LocalStorage) : DispatchOutcome × LocalStorage × Nat :=
  if spec.authorized && (store.getItem tokenKey).isNone then
    (DispatchOutcome.failure DispatchError.Unauthenticated, store, 0)
  else
    match transport with
    | TransportOutcome.noResponse =>
        (DispatchOutcome.failure DispatchError.Network, store, 1)
    | TransportOutcome.response status body =>
        if status = 401 then
          (DispatchOutcome.failure DispatchError.Unauthenticated,
           store.removeItem tokenKey, 1)
        else if 200 ≤ status ∧ status < 300 then
          (DispatchOutcome.success { status := status, body := body }, store, 1)
        else
          (DispatchOutcome.failure (DispatchError.Remote status body), store, 1)

/-! ## Store lemmas -/

/-- Looking up a key untouched by a filter on a different key is unchanged. -/
theorem find?_filter_other (l : List (String × String)) (k k2 : String)
    (h : k2 ≠ k) :
    (l.filter (fun p => p.1 != k)).find? (fun p => p.1 == k2)
      = l.find? (fun p => p.1 == k2) := by
  induction l with
  | nil => rfl
  | cons a l ih =>
    by_cases ha : a.1 = k
    · have h1 : (a.1 != k) = false := by simp [ha]
      have h2 : (a.1 == k2) = false := by
        simp [ha]
        exact Ne.symm h
      simp [List.filter_cons, h1, List.find?_cons, h2, ih]
    · have h1 : (a.1 != k) = true := by simp [ha]
      by_cases hk2 : a.1 = k2
      · simp [List.filter_cons, h1, List.find?_cons, hk2, h]
      · have h2 : (a.1 == k2) = false := by simp [hk2]
        simp [List.filter_cons, h1, List.find?_cons, h2, ih]

/-- After setItem, the written key reads back the written value. -/
theorem getItem_setItem_same (st : LocalStorage) (k v : String) :
    (st.setItem k v).getItem k = some v := by
  simp [LocalStorage.getItem, LocalStorage.setItem, List.find?_cons]

/-- After setItem, every other key reads as before. -/
theorem getItem_setItem_other (st : LocalStorage) (k v k2 : String)
    (h : k2 ≠ k) :
    (st.setItem k v).getItem k2 = st.getItem k2 := by
  have h2 : (k == k2) = false := by
    simp
    exact Ne.symm h
  simp [LocalStorage.getItem, LocalStorage.setItem, List.find?_cons, h2,
    find?_filter_other st k k2 h]

/-- After removeItem, the removed key reads absent. -/
theorem getItem_removeItem (st : LocalStorage) (k : String) :
    (st.removeItem k).getItem k = none := by
  induction st with
  | nil => rfl
  | cons a st ih =>
    by_cases ha : a.1 = k
    · have h1 : (a.1 != k) = false := by simp [ha]
      simp [LocalStorage.removeItem, LocalStorage.getItem, List.filter_cons,
        h1] at ih ⊢
    · have h1 : (a.1 != k) = true := by simp [ha]
      have h2 : (a.1 == k) = false := by simp [ha]
      simp [LocalStorage.removeItem, LocalStorage.getItem, List.filter_cons,
        List.find?_cons, h1, h2] at ih ⊢

/-! ## C1, C2: login -/

/-- C1: after a successful login, the store holds the server access_token
under the single well-known key, and every other key is unchanged. -/
theorem successful_login_stores_token (resp : LoginResponse) (s : ClientState) :
    (Login.login (ApiResult.ok resp) s).store.getItem tokenKey
        = some resp.access_token ∧
    ∀ k, k ≠ tokenKey →
      (Login.login (ApiResult.ok resp) s).store.getItem k
        = s.store.getItem k := by
  constructor
  · exact getItem_setItem_same s.store tokenKey resp.access_token
  · intro k hk
    exact getItem_setItem_other s.store tokenKey resp.access_token k hk

/-- C2: a failed login (the awaited post rejected, for transport or remote
reasons) leaves the whole client state unchanged: the store keeps whatever
session it held, and the route is not advanced. -/
theorem failed_login_leaves_state (s : ClientState) :
    Login.login ApiResult.err s = s := rfl

/-! ## C8: signup frame -/

/-- C8: a successful signup leaves the session store exactly as it was: no
session is created by signing up. -/
theorem signup_creates_no_session (s : ClientState) :
    (Signup.signup (ApiResult.ok ()) s).store = s.store := rfl

/-! ## Chat component lemmas -/

/-- A single successful send only overwrites the reply field. -/
theorem send_ok_reply (r : String) (s : ChatState) :
    Chat.send (ApiResult.ok { bot_reply := r }) s = { s with reply := r } := rfl

/-- After a nonempty sequence of sequentially awaited successful sends, the
reply field holds the last reply of the sequence. -/
theorem sendAll_reply (rs : List String) (h : rs ≠ []) (s : ChatState) :
    (Chat.sendAll rs s).reply = rs.getLast h := by
  induction rs generalizing s with
  | nil => exact absurd rfl h
  | cons r rs ih =>
    cases rs with
    | nil => rfl
    | cons r2 rs2 =>
      have hstep : Chat.sendAll (r :: r2 :: rs2) s
          = Chat.sendAll (r2 :: rs2)
              (Chat.send (ApiResult.ok { bot_reply := r }) s) := rfl
      rw [hstep, ih (List.cons_ne_nil r2 rs2)]
      exact (List.getLast_cons (List.cons_ne_nil r2 rs2)).symm

/-! ## C3: no conversation history of length 2N is kept -/

/-- C3 counterexample: in the scenario of the specification (one successful
send, input hi, reply hello, from the initial component state), the retained
transcript afterwards has length 1, not 2 times 1: the component keeps no
two-message history. -/
theorem send_keeps_no_two_message_history :
    (Chat.displayedMessages
        (Chat.send (ApiResult.ok { bot_reply := "hello" })
          { msg := "hi", reply := "" })).length ≠ 2 * 1 := by
  decide

/-- C3 amended: after a nonempty sequence of N sequentially awaited
successful sends, the Chat component retains a single bot line holding the
most recent reply: the transcript has length 1, never 2 times N, and no user
message is in it. -/
theorem sendAll_transcript_single_bot_line (rs : List String) (h : rs ≠ [])
    (s : ChatState) :
    Chat.displayedMessages (Chat.sendAll rs s)
        = [{ role := Role.bot, content := rs.getLast h }] ∧
    (Chat.displayedMessages (Chat.sendAll rs s)).length ≠ 2 * rs.length := by
  have hr := sendAll_reply rs h s
  constructor
  · simp [Chat.displayedMessages, hr]
  · have hlen : 1 ≤ rs.length := List.length_pos.mpr h
    simp [Chat.displayedMessages]
    omega

/-- Witness for the amended C3 at a concrete input: one successful send of
hello from the scenario state. -/
theorem sendAll_transcript_single_bot_line_w :
    Chat.displayedMessages (Chat.sendAll ["hello"] { msg := "hi", reply := "" })
        = [{ role := Role.bot, content := "hello" }] ∧
    (Chat.displayedMessages
        (Chat.sendAll ["hello"] { msg := "hi", reply := "" })).length
      ≠ 2 * (["hello"] : List String).length :=
  sendAll_transcript_single_bot_line ["hello"] (List.cons_ne_nil "hello" [])
    { msg := "hi", reply := "" }

/-! ## C4: a failed send appends nothing -/

/-- C4 counterexample: a failed send does not grow the retained transcript by
one message: at the concrete state with input x, the length afterwards is not
the length before plus one (nothing is appended at all). -/
theorem failed_send_grows_transcript_by_zero :
    (Chat.displayedMessages
        (Chat.send ApiResult.err { msg := "x", reply := "" })).length
      ≠ (Chat.displayedMessages
          ({ msg := "x", reply := "" } : ChatState)).length + 1 := by
  decide

/-- C4 amended: a failed send leaves the Chat component state completely
unchanged: no user message is appended (the component retains none to begin
with) and no bot reply is set. -/
theorem failed_send_leaves_state (s : ChatState) :
    Chat.send ApiResult.err s = s := rfl

/-! ## C10: only the most recent bot reply is retained -/

/-- C10: the Chat component retains at most one bot reply and no user
message: a successful send overwrites the reply field, so after any nonempty
sequence of successful sends the transcript is exactly one bot message
holding the most recent reply, and every retained message has the bot
role. -/
theorem chat_retains_only_last_reply (rs : List String) (h : rs ≠ [])
    (s : ChatState) (r : String) :
    (Chat.send (ApiResult.ok { bot_reply := r }) s).reply = r ∧
    Chat.displayedMessages (Chat.sendAll rs s)
        = [{ role := Role.bot, content := rs.getLast h }] ∧
    ∀ m ∈ Chat.displayedMessages (Chat.sendAll rs s), m.role = Role.bot := by
  refine ⟨rfl, ?_, ?_⟩
  · simp [Chat.displayedMessages, sendAll_reply rs h s]
  · intro m hm
    simp [Chat.displayedMessages] at hm
    rw [hm]

/-- Witness for C10 at a concrete input: two successful sends, first and
then second; only the second is retained. -/
theorem chat_retains_only_last_reply_w :
    (Chat.send (ApiResult.ok { bot_reply := "yo" })
        { msg := "m", reply := "" }).reply = "yo" ∧
    Chat.displayedMessages
        (Chat.sendAll ["first", "second"] { msg := "m", reply := "" })
        = [{ role := Role.bot, content := "second" }] ∧
    ∀ m ∈ Chat.displayedMessages
        (Chat.sendAll ["first", "second"] { msg := "m", reply := "" }),
      m.role = Role.bot :=
  chat_retains_only_last_reply ["first", "second"]
    (List.cons_ne_nil "first" ["second"]) { msg := "m", reply := "" } "yo"

/-! ## C5, C6: dispatcher -/

/-- C5: an authorized dispatch with no stored session fails with
Unauthenticated, leaves the store untouched, and invokes the transport zero
times, whatever the transport would have produced. -/
theorem authorized_without_session_no_network_call (spec : RequestSpec)
    (t : TransportOutcome) (store : LocalStorage)
    (ha : spec.authorized = true) (hs : store.getItem tokenKey = none) :
    dispatch spec t store
      = (DispatchOutcome.failure DispatchError.Unauthenticated, store, 0) := by
  simp [dispatch, ha, hs]

/-- Witness for C5 at a concrete input: an authorized chat request against
the empty store, with a transport that would have failed. -/
theorem authorized_without_session_no_network_call_w :
    dispatch
        { method := "POST", path := "/chat", encoding := Encoding.structured,
          authorized := true }
        TransportOutcome.noResponse []
      = (DispatchOutcome.failure DispatchError.Unauthenticated, [], 0) :=
  authorized_without_session_no_network_call
    { method := "POST", path := "/chat", encoding := Encoding.structured,
      authorized := true }
    TransportOutcome.noResponse [] rfl rfl

/-- C6: an authorized request (a session is present, so the call is issued)
answered with the authorization-failure status 401 clears the stored token as
a side effect and yields Unauthenticated; afterwards the well-known key reads
absent. -/
theorem auth_failure_response_clears_session (spec : RequestSpec)
    (store : LocalStorage) (body tok : String)
    (h_a : spec.authorized = true) (hs : store.getItem tokenKey = some tok) :
    dispatch spec (TransportOutcome.response 401 body) store
        = (DispatchOutcome.failure DispatchError.Unauthenticated,
           store.removeItem tokenKey, 1) ∧
    (store.removeItem tokenKey).getItem tokenKey = none := by
  constructor
  · simp [dispatch, hs]
  · exact getItem_removeItem store tokenKey

/-- Witness for C6 at a concrete input: an authorized chat request with a
stored token answered 401. -/
theorem auth_failure_response_clears_session_w :
    dispatch
        { method := "POST", path := "/chat", encoding := Encoding.structured,
          authorized := true }
        (TransportOutcome.response 401 "expired") [("token", "tok123")]
        = (DispatchOutcome.failure DispatchError.Unauthenticated,
           LocalStorage.removeItem [("token", "tok123")] tokenKey, 1) ∧
    (LocalStorage.removeItem [("token", "tok123")] tokenKey).getItem
        tokenKey = none :=
  auth_failure_response_clears_session
    { method := "POST", path := "/chat", encoding := Encoding.structured,
      authorized := true }
    [("token", "tok123")] "expired" "tok123" rfl rfl

/-! ## C7: per-endpoint encodings -/

/-- The query component of the interpolated signup URL is exactly the raw
interpolation of the two credentials. -/
theorem queryChars_signupUrl (u p : String) :
    queryChars (Signup.signupUrl u p).toList
      = ("username=" ++ u ++ "&password=" ++ p).toList := rfl

/-- C7: the login request carries the credentials as a form-encoded body
(both in loginUser of chatApi.js and in the Login page handler), the signup
request carries them as query parameters (the axios params option in
signupUser of chatApi.js; the query component of the interpolated URL in the
Signup page handler) with no body, and the chat request carries the message
as a structured body with the single field message (both in sendMessage of
chatApi.js and in the Chat page handler). -/
theorem request_encodings (creds : List (String × String)) (u p m : String)
    (s : ChatState) :
    (loginUser creds).body = ReqBody.form creds ∧
    (Login.loginRequest u p).body
        = ReqBody.form [("username", u), ("password", p)] ∧
    (signupUser creds).body = ReqBody.empty ∧
    (signupUser creds).params = creds ∧
    (Signup.signupRequest u p).body = ReqBody.empty ∧
    queryChars (Signup.signupRequest u p).url.toList
        = ("username=" ++ u ++ "&password=" ++ p).toList ∧
    (sendMessage m).body = ReqBody.json [("message", m)] ∧
    (Chat.sendRequest s).body = ReqBody.json [("message", s.msg)] :=
  ⟨rfl, rfl, rfl, rfl, rfl, queryChars_signupUrl u p, rfl, rfl⟩

/-! ## C9: raw interpolation mangles the signup query -/

/-- C9: the signup URL is built by raw string interpolation, so for some
credentials the query parameters a standard server parses out of the sent URL
are not the submitted username and password: concretely, with username a&b
and password pw, the server sees username a, a stray empty-valued key b, and
password pw. -/
theorem signup_interpolation_mangles_query :
    (∃ u p, parseQuery (Signup.signupRequest u p).url
        ≠ [("username", u), ("password", p)]) ∧
    parseQuery (Signup.signupRequest "a&b" "pw").url
        = [("username", "a"), ("b", ""), ("password", "pw")] := by
  constructor
  · refine ⟨"a&b", "pw", ?_⟩
    decide
  · decide

end ChatbotClient
